import Mathlib

/-!
Verification development for the one-api relay gateway core.

The definitions below are a shallow embedding of the Go source:
- the quota settlement computation and its ledger effects
  (controller.relayTextHelper, deferred settlement goroutine),
- the pre-consumption ledger step (controller.relayTextHelper),
- the racing dispatcher select loop (controller.asyncHTTPDo),
- the model-mapping / pricing name flow (controller.relayTextHelper),
- the leader election renew logic (election.StartLeaderElection),
- the realtime pub-sub message handler (realtime.StartRealtimeSync),
- the Azure URL rewrite (controller.relayTextHelper),
- the Channel accessors (model.Channel).

Go machine integers are modelled as Lean Int, Go float64 ratio arithmetic
is modelled exactly over the rationals, and the concurrent select loop of
asyncHTTPDo is modelled as a sequential run over the trace of completion
events, in the order the single consumer of the response channel observes
them.
-/
/-! ## Settlement quota (relayTextHelper, deferred settlement goroutine)

Source:
  quota = int(math.Ceil((float64(promptTokens) + float64(completionTokens)*completionRatio) * ratio))
  if ratio != 0 && quota <= 0 { quota = 1 }
  totalTokens := promptTokens + completionTokens
  if totalTokens == 0 { quota = 0 }
-/
/-- Raw settlement amount before rounding fixups: the ceiling of
(promptTokens + completionTokens * completionRatio) * ratio, computed
exactly over the rationals (the Go code computes it in float64). -/
def rawQuota (promptTokens completionTokens : Nat) (completionRatio ratio : ℚ) : Int :=
  ⌈((promptTokens : ℚ) + (completionTokens : ℚ) * completionRatio) * ratio⌉

/-- Settled quota as computed by the deferred settlement goroutine of
relayTextHelper: the raw ceiling, bumped to 1 when the ratio is nonzero
and the ceiling is nonpositive, then forced to 0 when no tokens at all
were produced. -/
def settleQuota (promptTokens completionTokens : Nat) (completionRatio ratio : ℚ) : Int :=
  let quota := rawQuota promptTokens completionTokens completionRatio ratio
  let quota2 := if ratio ≠ 0 ∧ quota ≤ 0 then 1 else quota
  if promptTokens + completionTokens = 0 then 0 else quota2

/-! ## Settlement ledger effects (relayTextHelper, deferred settlement goroutine)

Source:
  quotaDelta := quota - preConsumedQuota
  err = model.PostConsumeTokenQuota(tokenId, userQuota, quotaDelta, preConsumedQuota, true)
  err = model.CacheUpdateUserQuota(userId)
  if quota != 0 {
    logContent := fmt.Sprintf(..., modelRatio, groupRatio)
    model.RecordConsumeLog(...)
    model.UpdateUserUsedQuotaAndRequestCount(userId, quota)
    model.UpdateChannelUsedQuota(channelId, quota)
  }
-/
/-- Record of the external ledger calls issued by one settlement run.
tokenQuotaDelta is the delta passed to PostConsumeTokenQuota (always
issued), userQuotaCacheRefreshed records the unconditional
CacheUpdateUserQuota call, and the three Option fields record the calls
that the source guards with quota != 0; consumeLog carries the literal
model-ratio and group-ratio values written into the log free-text. -/
structure SettleEffects where
  tokenQuotaDelta : Int
  userQuotaCacheRefreshed : Bool
  consumeLog : Option (ℚ × ℚ)
  userUsedQuotaAdded : Option Int
  channelUsedQuotaAdded : Option Int
deriving DecidableEq, Repr

/-- Ledger effects of the settlement goroutine of relayTextHelper, with
ratio = modelRatio * groupRatio as computed earlier in the pipeline. -/
def settleEffects (promptTokens completionTokens : Nat)
    (completionRatio modelRatio groupRatio : ℚ) (preConsumedQuota : Int) : SettleEffects :=
  let ratio := modelRatio * groupRatio
  let quota := settleQuota promptTokens completionTokens completionRatio ratio
  { tokenQuotaDelta := quota - preConsumedQuota
    userQuotaCacheRefreshed := true
    consumeLog := if quota ≠ 0 then some (modelRatio, groupRatio) else none
    userUsedQuotaAdded := if quota ≠ 0 then some quota else none
    channelUsedQuotaAdded := if quota ≠ 0 then some quota else none }

/-! ## Pre-consumption ledger step (relayTextHelper)

Source:
  userQuota, err := model.CacheGetUserQuota(userId)
  if userQuota-preConsumedQuota < 0 { return insufficient_user_quota }
  err = model.CacheDecreaseUserQuota(userId, preConsumedQuota)
  if userQuota > 100*preConsumedQuota { preConsumedQuota = 0 }
  if preConsumedQuota > 0 {
    err := model.PreConsumeTokenQuota(tokenId, preConsumedQuota)
  }
-/
/-- Ledger state visible to the pre-consumption step: the cached user
quota and the token's persisted remaining quota. -/
structure LedgerState where
  userCache : Int
  tokenRemain : Int
deriving DecidableEq, Repr

/-- Pre-consumption step of relayTextHelper. Returns none on the
insufficient-quota early return, otherwise the recorded pre-consumed
amount together with the ledger state after the step.

Modelled from the spec: the bodies of model.CacheDecreaseUserQuota and
model.PreConsumeTokenQuota are not part of the provided sources; per the
spec the former decrements the cached user quota and the latter
decrements the token's persisted remaining quota. The order and the
conditions of the calls are taken from relayTextHelper itself. -/
def preconsumeRelay (preConsumedQuota : Int) (st : LedgerState) : Option (Int × LedgerState) :=
  let userQuota := st.userCache
  if userQuota - preConsumedQuota < 0 then none
  else
    let st1 : LedgerState := { st with userCache := st.userCache - preConsumedQuota }
    let pre1 := if userQuota > 100 * preConsumedQuota then 0 else preConsumedQuota
    if pre1 > 0 then some (pre1, { st1 with tokenRemain := st1.tokenRemain - pre1 })
    else some (pre1, st1)

/-! ## Racing dispatcher (asyncHTTPDo)

The concurrent select loop of asyncHTTPDo is modelled as a sequential
run over the trace of events observed by the single consumer of the
response channel, in arrival order:
- resp i status: attempt i delivered an HTTP response with the given
  status code (the goroutine deletes its own cancel entry before the
  send when the status is 200);
- errEvent i: attempt i failed with a transport error (it records the
  error and cancels only itself; its table entry stays);
- timerFire: the 5-second timer fired (launches one escalation attempt
  with the original request when asyncNum > 1);
- allDone: the wait group drained with no winner (the loop cancels all
  remaining entries and returns the first queued fallback, if any).
-/
/-- Event observed by the asyncHTTPDo select loop. -/
inductive RaceEvent where
  | resp (i : Nat) (status : Nat)
  | errEvent (i : Nat)
  | timerFire
  | allDone
deriving DecidableEq, Repr

/-- True exactly for a response event with HTTP status 200. -/
def RaceEvent.isWin : RaceEvent → Bool
  | .resp _ status => status == 200
  | _ => false

/-- Outcome of asyncHTTPDo: either the winning attempt index together
with the cancel entries invoked at win time, or the no-winner return
carrying the first queued fallback response, the last transport error
and the entries canceled on the done path. -/
inductive RaceOutcome where
  | winner (i : Nat) (canceled : List Nat)
  | noWinner (firstFallback : Option Nat) (lastErrIdx : Option Nat) (canceled : List Nat)
deriving DecidableEq, Repr

/-- State of the asyncHTTPDo select loop: the shared cancel table
(attempt indices with a registered cancel function), the queued fallback
responses, the last transport error, and the escalation attempts
launched by the timer (each recorded as the request object it used). -/
structure RaceState (α : Type) where
  cancelFuncs : List Nat
  resps : List Nat
  lastErrIdx : Option Nat
  escalations : List α
deriving DecidableEq, Repr

/-- One iteration of the asyncHTTPDo select loop on one observed event:
either a new state (inl) or a return (inr). A 200 response wins: its own
entry was already deleted by its goroutine, and every entry still in the
table is canceled. A non-200 response is queued as a fallback. A
transport error records itself. The timer, when asyncNum > 1, launches
exactly one escalation attempt with the original request object. -/
def raceStep {α : Type} (asyncNum : Nat) (origReq : α) (st : RaceState α) :
    RaceEvent → RaceState α ⊕ RaceOutcome
  | .resp i status =>
    if status = 200 then
      Sum.inr (RaceOutcome.winner i (st.cancelFuncs.erase i))
    else Sum.inl { st with resps := st.resps ++ [i] }
  | .errEvent i => Sum.inl { st with lastErrIdx := some i }
  | .timerFire =>
    if asyncNum > 1 then Sum.inl { st with escalations := st.escalations ++ [origReq] }
    else Sum.inl st
  | .allDone => Sum.inr (RaceOutcome.noWinner st.resps.head? st.lastErrIdx st.cancelFuncs)

/-- Run of the asyncHTTPDo select loop over a trace of events; none
means the trace ended before a return (cannot happen in the source,
where allDone always eventually arrives). -/
def raceRun {α : Type} (asyncNum : Nat) (origReq : α) (st : RaceState α) :
    List RaceEvent → Option RaceOutcome
  | [] => none
  | e :: rest =>
    match raceStep asyncNum origReq st e with
    | Sum.inl st2 => raceRun asyncNum origReq st2 rest
    | Sum.inr out => some out

/-! ## Model mapping and pricing names (relayTextHelper)

Source:
  if modelMap[textRequest.Model] != "" {
    textRequest.Model = modelMap[textRequest.Model]
    isModelMapped = true
  }
  ...
  modelRatio := common.GetModelRatio(textRequest.Model)
  ...
  if isModelMapped { jsonStr, err := json.Marshal(textRequest); ... }

The parsed model_mapping JSON object is modelled as a total function
from model names to model names that returns the empty string on
missing keys, exactly as a Go map lookup does.
-/
/-- Model-mapping step of relayTextHelper: the pair of the value of
textRequest.Model after the mapping block and the isModelMapped flag. -/
def mapModelName (modelMap : String → String) (model : String) : String × Bool :=
  if modelMap model ≠ "" then (modelMap model, true) else (model, false)

/-- Model name passed to common.GetModelRatio (and later to
common.GetCompletionRatio): textRequest.Model as it stands after the
mapping block rewrote it. -/
def pricedModelName (modelMap : String → String) (model : String) : String :=
  (mapModelName modelMap model).1

/-- Model name serialized into the outbound request body when the model
was mapped: textRequest.Model after the mapping block. -/
def outboundModelName (modelMap : String → String) (model : String) : String :=
  (mapModelName modelMap model).1

/-- Mapping used in the C5 counterexample: gpt-4 maps to gpt-4-32k,
every other name is absent. -/
def exampleModelMap : String → String :=
  fun s => if s = "gpt-4" then "gpt-4-32k" else ""

/-! ## Leader election (election.StartLeaderElection)

Source:
  leaseSeconds := viper.GetInt("leader_election.lease_seconds")
  if leaseSeconds <= 0 { leaseSeconds = 15 }
  leaseTTL := time.Duration(leaseSeconds) * time.Second
  renewInterval := leaseTTL / 2
  if renewInterval < time.Second { renewInterval = time.Second }
and the renew Lua script:
  local v = redis.call(GET, KEYS[1])
  if v == ARGV[1] then return redis.call(PEXPIRE, KEYS[1], ARGV[2]) else return 0 end
and the leader branch of the loop, which stays leader only when the
script result is the integer 1 and demotes on 0, on any unexpected
value, and on transport error (the error path leaves res nil, which
falls to the default demotion branch).
-/
/-- Configured lease seconds with the non-positive default applied. -/
def effectiveLeaseSeconds (cfg : Int) : Int :=
  if cfg ≤ 0 then 15 else cfg

/-- Renew interval in milliseconds: half the lease TTL, floored at one
second (durations modelled in milliseconds; the second division of a
whole number of seconds is exact). -/
def renewIntervalMs (cfg : Int) : Int :=
  let ttlMs := effectiveLeaseSeconds cfg * 1000
  let r := ttlMs / 2
  if r < 1000 then 1000 else r

/-- Lease store content: none when the key is absent, otherwise the
held node identity and its remaining TTL in milliseconds. -/
def LeaseStore : Type := Option (String × Int)

/-- The compare-and-renew Lua script run against the lease store:
returns the new store and the script's integer reply (PEXPIRE returns 1
on an existing key; a non-matching or absent value returns 0 and leaves
the store untouched). -/
def renewScript (store : Option (String × Int)) (nodeID : String) (ttlMillis : Int) :
    Option (String × Int) × Int :=
  match store with
  | some (v, t) => if v = nodeID then (some (v, ttlMillis), 1) else (some (v, t), 0)
  | none => (none, 0)

/-- Reply of the renew script run as seen by the Go switch: an integer
reply or anything else (nil included). -/
inductive RenewReply where
  | intReply (v : Int)
  | otherReply
deriving DecidableEq, Repr

/-- Whether the node is still leader after one renew attempt: only an
integer reply equal to 1 keeps leadership; 0, any unexpected value and
a transport error (which leaves the reply nil) all demote. -/
def leaderAfterRenew (res : Except Unit RenewReply) : Bool :=
  match res with
  | Except.ok (RenewReply.intReply v) => if v = 1 then true else false
  | Except.ok RenewReply.otherReply => false
  | Except.error _ => false

/-! ## Realtime sync message handling (realtime.StartRealtimeSync)

Source:
  payload := msg.Payload
  if sep := strings.Index(payload, "|"); sep > 0 {
    originID := payload[:sep]
    if originID == config.InstanceID { continue }
    payload = payload[sep+1:]
  }
  switch msg.Channel {
  case rds.RedisTopicOptionsSync:  (both payload shapes reload options)
  case rds.RedisTopicChannelsSync: safeReloadChannels()
  default: ignore
  }

Payloads are modelled as character lists; strings.Index is byte-based
in Go, which coincides with the character index for the ASCII pipe
delimiter and ASCII instance identifiers used here.
-/
/-- Pub-sub topic of a received message; the two subscribed topics plus
the default branch. -/
inductive SyncTopic where
  | optionsSync
  | channelsSync
  | otherTopic
deriving DecidableEq, Repr

/-- Reload action triggered by one received message. -/
inductive SyncAction where
  | reloadOptions
  | reloadChannels
  | noAction
deriving DecidableEq, Repr

/-- Model of strings.Index(payload, the pipe delimiter): position of the
first pipe, none when absent. -/
def indexOfPipe : List Char → Option Nat
  | [] => none
  | a :: l => if a = '|' then some 0 else (indexOfPipe l).map (· + 1)

/-- Action taken by the topic switch once a message survives the
self-origin check. -/
def dispatchTopic : SyncTopic → SyncAction
  | SyncTopic.optionsSync => SyncAction.reloadOptions
  | SyncTopic.channelsSync => SyncAction.reloadChannels
  | SyncTopic.otherTopic => SyncAction.noAction

/-- Handler for one received pub-sub message: when the payload has a
pipe at a positive position and the part before it equals the receiving
node's instance id, the message is skipped; otherwise the topic switch
runs. -/
def handleSyncMessage (instanceID : String) (topic : SyncTopic) (payload : List Char) :
    SyncAction :=
  match indexOfPipe payload with
  | some sep =>
    if 0 < sep then
      if payload.take sep = instanceID.data then SyncAction.noAction
      else dispatchTopic topic
    else dispatchTopic topic
  | none => dispatchTopic topic

/-! ## Azure URL rewrite (relayTextHelper, APITypeOpenAI with ChannelTypeAzure)

Source:
  requestURL := strings.Split(requestURL, "?")[0]
  requestURL = fmt.Sprintf("%s?api-version=%s", requestURL, apiVersion)
  task := strings.TrimPrefix(requestURL, "/v1/")
  model_ := textRequest.Model
  model_ = strings.Replace(model_, ".", "", -1)
  model_ = strings.TrimSuffix(model_, "-0301")
  model_ = strings.TrimSuffix(model_, "-0314")
  model_ = strings.TrimSuffix(model_, "-0613")
  requestURL = fmt.Sprintf("/openai/deployments/%s/%s", model_, task)
-/
/-- Model of strings.TrimSuffix: drop the suffix when present, identity
otherwise. -/
def goTrimTrailing (s suf : List Char) : List Char :=
  if suf.isSuffixOf s then s.take (s.length - suf.length) else s

/-- Model of strings.TrimPrefix: drop the leading pattern when present,
identity otherwise. -/
def goTrimLeading (s pat : List Char) : List Char :=
  if pat.isPrefixOf s then s.drop pat.length else s

/-- Model of strings.Split(s, the question mark)[0]: everything before
the first question mark. -/
def goCutAtQuery (s : List Char) : List Char :=
  s.takeWhile (fun a => a ≠ '?')

/-- Azure deployment-name sanitization of relayTextHelper: remove every
dot (strings.Replace with count -1), then strip one trailing -0301,
-0314 and -0613 in that order. -/
def sanitizeAzureModel (model : String) : String :=
  let m1 := model.data.filter (fun ch => ch ≠ '.')
  let m2 := goTrimTrailing m1 ("-0301" : String).data
  let m3 := goTrimTrailing m2 ("-0314" : String).data
  let m4 := goTrimTrailing m3 ("-0613" : String).data
  String.mk m4

/-- Outbound URL path built for an Azure-type channel from the inbound
request path, the api version and the (already mapped) model name. -/
def azureRequestURL (origURL apiVersion model : String) : String :=
  let requestURL := goCutAtQuery origURL.data ++ ("?api-version=" ++ apiVersion).data
  let task := goTrimLeading requestURL ("/v1/" : String).data
  String.mk (("/openai/deployments/" : String).data ++ (sanitizeAzureModel model).data ++
    '/' :: task)

/-! ## Channel accessors (model.Channel)

Source: the Channel struct of the model package and its GetPriority,
GetBaseURL and GetModelMapping methods; Go pointer fields that may be
nil are modelled as Option. -/
/-- The Channel record: a configured upstream endpoint. Optional (Go
pointer) fields are Option; the float64 balance is modelled as a
rational. -/
structure Channel where
  id : Int
  type : Int
  key : String
  status : Int
  name : String
  weight : Option Nat
  createdTime : Int
  testTime : Int
  responseTime : Int
  fullURL : String
  baseURL : Option String
  other : String
  balance : ℚ
  balanceUpdatedTime : Int
  models : String
  group : String
  usedQuota : Int
  asyncNum : Int
  modelMapping : Option String
  priority : Option Int
  autoBan : Option Int
deriving DecidableEq, Repr

/-- Channel.GetPriority: 0 when the priority pointer is nil, the pointee
otherwise. -/
def Channel.getPriority (c : Channel) : Int :=
  match c.priority with
  | none => 0
  | some p => p

/-- Channel.GetBaseURL: the empty string when the base-URL pointer is
nil, the pointee otherwise. -/
def Channel.getBaseURL (c : Channel) : String :=
  match c.baseURL with
  | none => ""
  | some u => u

/-- Channel.GetModelMapping: the empty string when the model-mapping
pointer is nil, the pointee otherwise. -/
def Channel.getModelMapping (c : Channel) : String :=
  match c.modelMapping with
  | none => ""
  | some m => m

/-- A concrete channel with every optional pointer nil. -/
def exampleChannel : Channel :=
  { id := 1, type := 0, key := "k", status := 1, name := "c", weight := none,
    createdTime := 0, testTime := 0, responseTime := 0, fullURL := "",
    baseURL := none, other := "", balance := 0, balanceUpdatedTime := 0,
    models := "", group := "default", usedQuota := 0, asyncNum := 1,
    modelMapping := none, priority := none, autoBan := none }

/-! ## Theorems on settlement and pre-consumption -/
/-- C1: for every relay call reaching settlement with positive
model-ratio * group-ratio and nonnegative completion ratio, the settled
quota is 0 when no tokens were produced, is 1 when tokens were produced
but the ceiling of (prompt + completion * completionRatio) * ratio is 0,
and equals that ceiling otherwise. -/
theorem settlement_quota_formula (promptTokens completionTokens : Nat)
    (completionRatio modelRatio groupRatio : ℚ)
    (hcr : 0 ≤ completionRatio) (hr : 0 < modelRatio * groupRatio) :
    (promptTokens + completionTokens = 0 →
      settleQuota promptTokens completionTokens completionRatio (modelRatio * groupRatio) = 0) ∧
    (0 < promptTokens + completionTokens →
      rawQuota promptTokens completionTokens completionRatio (modelRatio * groupRatio) = 0 →
      settleQuota promptTokens completionTokens completionRatio (modelRatio * groupRatio) = 1) ∧
    (0 < promptTokens + completionTokens →
      rawQuota promptTokens completionTokens completionRatio (modelRatio * groupRatio) ≠ 0 →
      settleQuota promptTokens completionTokens completionRatio (modelRatio * groupRatio) =
        rawQuota promptTokens completionTokens completionRatio (modelRatio * groupRatio)) := by
  have hraw : 0 ≤ rawQuota promptTokens completionTokens completionRatio (modelRatio * groupRatio) := by
    apply Int.ceil_nonneg
    apply mul_nonneg
    · exact add_nonneg (Nat.cast_nonneg _) (mul_nonneg (Nat.cast_nonneg _) hcr)
    · exact le_of_lt hr
  refine ⟨?_, ?_, ?_⟩
  · intro h0
    simp [settleQuota, h0]
  · intro hpos hz
    have hne : promptTokens + completionTokens ≠ 0 := Nat.pos_iff_ne_zero.mp hpos
    simp only [settleQuota, hne, if_false]
    rw [if_pos]
    exact ⟨ne_of_gt hr, by rw [hz]⟩
  · intro hpos hnz
    have hne : promptTokens + completionTokens ≠ 0 := Nat.pos_iff_ne_zero.mp hpos
    have hgt : ¬ rawQuota promptTokens completionTokens completionRatio (modelRatio * groupRatio) ≤ 0 := by
      intro hle
      exact hnz (le_antisymm hle hraw)
    simp only [settleQuota, hne, if_false]
    rw [if_neg]
    intro hc
    exact hgt hc.2

/-- Witness for settlement_quota_formula at promptTokens = 2,
completionTokens = 3, completionRatio = 1, modelRatio = 1, groupRatio = 1. -/
theorem settlement_quota_formula_witness :
    0 ≤ (1 : ℚ) ∧ 0 < (1 : ℚ) * 1 ∧
    ((2 + 3 = 0 → settleQuota 2 3 1 ((1 : ℚ) * 1) = 0) ∧
     (0 < 2 + 3 → rawQuota 2 3 1 ((1 : ℚ) * 1) = 0 → settleQuota 2 3 1 ((1 : ℚ) * 1) = 1) ∧
     (0 < 2 + 3 → rawQuota 2 3 1 ((1 : ℚ) * 1) ≠ 0 →
       settleQuota 2 3 1 ((1 : ℚ) * 1) = rawQuota 2 3 1 ((1 : ℚ) * 1))) :=
  ⟨by norm_num, by norm_num,
   settlement_quota_formula 2 3 1 1 1 (by norm_num) (by norm_num)⟩

/-- C2 as stated is false: with cached user quota 1000, pre-consume
estimate 1 and token remaining 700, the cached quota exceeds 100 times
the estimate, yet the user's cached quota is still decremented (1000 to
999) because relayTextHelper calls CacheDecreaseUserQuota before the
trust check; the claim demands that it stay 1000. -/
theorem preconsume_trusted_claim_counterexample :
    preconsumeRelay 1 ⟨1000, 700⟩ = some (0, ⟨999, 700⟩) ∧
    (1000 : Int) > 100 * 1 ∧ (999 : Int) ≠ 1000 := by
  refine ⟨?_, by norm_num, by norm_num⟩
  rfl

/-- C2 amended: whenever the pre-consume estimate is nonnegative and the
cached user quota covers it, the step succeeds and the user's cached
quota is always decremented by the estimate (before the trust check);
when the cached quota exceeds 100 times the estimate the recorded
pre-consumed amount is 0 and the token's persisted remaining quota is
untouched, and otherwise the recorded amount is the estimate and the
token's remaining quota is decremented by it as well. -/
theorem preconsume_trusted_amended (preConsumedQuota : Int) (st : LedgerState)
    (hpre : 0 ≤ preConsumedQuota) (hq : 0 ≤ st.userCache - preConsumedQuota) :
    ∃ recorded st2, preconsumeRelay preConsumedQuota st = some (recorded, st2) ∧
      st2.userCache = st.userCache - preConsumedQuota ∧
      (st.userCache > 100 * preConsumedQuota →
        recorded = 0 ∧ st2.tokenRemain = st.tokenRemain) ∧
      (¬ st.userCache > 100 * preConsumedQuota →
        recorded = preConsumedQuota ∧
        st2.tokenRemain = st.tokenRemain - preConsumedQuota) := by
  have hnotlt : ¬ st.userCache - preConsumedQuota < 0 := not_lt.mpr hq
  by_cases htrust : st.userCache > 100 * preConsumedQuota
  · refine ⟨0, { st with userCache := st.userCache - preConsumedQuota }, ?_, rfl, ?_, ?_⟩
    · simp [preconsumeRelay, hnotlt, htrust]
    · intro _; exact ⟨rfl, rfl⟩
    · intro hc; exact absurd htrust hc
  · by_cases hpos : preConsumedQuota > 0
    · refine ⟨preConsumedQuota,
        { userCache := st.userCache - preConsumedQuota,
          tokenRemain := st.tokenRemain - preConsumedQuota }, ?_, rfl, ?_, ?_⟩
      · simp [preconsumeRelay, hnotlt, htrust, hpos]
      · intro hc; exact absurd hc htrust
      · intro _; exact ⟨rfl, rfl⟩
    · have hz : preConsumedQuota = 0 := le_antisymm (not_lt.mp hpos) hpre
      refine ⟨preConsumedQuota, { st with userCache := st.userCache - preConsumedQuota },
        ?_, rfl, ?_, ?_⟩
      · simp [preconsumeRelay, hnotlt, htrust, hpos, hz]
        omega
      · intro hc; exact absurd hc htrust
      · intro _; exact ⟨rfl, by simp [hz]⟩

/-- Witness for preconsume_trusted_amended at estimate 5 and ledger
state (userCache 300, tokenRemain 40). -/
theorem preconsume_trusted_amended_witness :
    0 ≤ (5 : Int) ∧ 0 ≤ (300 : Int) - 5 ∧
    (∃ recorded st2, preconsumeRelay 5 ⟨300, 40⟩ = some (recorded, st2) ∧
      st2.userCache = (300 : Int) - 5 ∧
      ((300 : Int) > 100 * 5 → recorded = 0 ∧ st2.tokenRemain = 40) ∧
      (¬ (300 : Int) > 100 * 5 → recorded = 5 ∧ st2.tokenRemain = (40 : Int) - 5)) :=
  ⟨by norm_num, by norm_num,
   preconsume_trusted_amended 5 ⟨300, 40⟩ (by norm_num) (by norm_num)⟩

/-- C6 as stated is false: a settlement that computes quota 0 (here a
call with zero prompt and completion tokens, ratios 1, pre-consumed 5)
writes no consume-log record and does not touch the user or channel
used-quota counters, because the source guards those three calls with
quota != 0; only the token-quota call (with delta -5) and the user cache
refresh are issued. -/
theorem settlement_effects_claim_counterexample :
    (settleEffects 0 0 1 1 1 5).consumeLog = none ∧
    (settleEffects 0 0 1 1 1 5).userUsedQuotaAdded = none ∧
    (settleEffects 0 0 1 1 1 5).channelUsedQuotaAdded = none ∧
    (settleEffects 0 0 1 1 1 5).tokenQuotaDelta = -5 ∧
    (settleEffects 0 0 1 1 1 5).userQuotaCacheRefreshed = true := by
  norm_num [settleEffects, settleQuota, rawQuota]

/-- C6 amended: every settlement updates the token's remaining quota
(PostConsumeTokenQuota with delta quota - preconsumed) and refreshes the
user quota cache; the consume-log record (carrying the literal model and
group ratio values), the user used-quota update and the channel
used-quota update are issued exactly when the computed quota is nonzero. -/
theorem settlement_effects_amended (promptTokens completionTokens : Nat)
    (completionRatio modelRatio groupRatio : ℚ) (preConsumedQuota : Int) :
    (settleEffects promptTokens completionTokens completionRatio modelRatio groupRatio
        preConsumedQuota).tokenQuotaDelta =
      settleQuota promptTokens completionTokens completionRatio (modelRatio * groupRatio) -
        preConsumedQuota ∧
    (settleEffects promptTokens completionTokens completionRatio modelRatio groupRatio
        preConsumedQuota).userQuotaCacheRefreshed = true ∧
    (settleQuota promptTokens completionTokens completionRatio (modelRatio * groupRatio) ≠ 0 →
      (settleEffects promptTokens completionTokens completionRatio modelRatio groupRatio
          preConsumedQuota).consumeLog = some (modelRatio, groupRatio) ∧
      (settleEffects promptTokens completionTokens completionRatio modelRatio groupRatio
          preConsumedQuota).userUsedQuotaAdded =
        some (settleQuota promptTokens completionTokens completionRatio
          (modelRatio * groupRatio)) ∧
      (settleEffects promptTokens completionTokens completionRatio modelRatio groupRatio
          preConsumedQuota).channelUsedQuotaAdded =
        some (settleQuota promptTokens completionTokens completionRatio
          (modelRatio * groupRatio))) ∧
    (settleQuota promptTokens completionTokens completionRatio (modelRatio * groupRatio) = 0 →
      (settleEffects promptTokens completionTokens completionRatio modelRatio groupRatio
          preConsumedQuota).consumeLog = none ∧
      (settleEffects promptTokens completionTokens completionRatio modelRatio groupRatio
          preConsumedQuota).userUsedQuotaAdded = none ∧
      (settleEffects promptTokens completionTokens completionRatio modelRatio groupRatio
          preConsumedQuota).channelUsedQuotaAdded = none) := by
  refine ⟨rfl, rfl, ?_, ?_⟩
  · intro hnz
    exact ⟨by simp [settleEffects, hnz], by simp [settleEffects, hnz],
      by simp [settleEffects, hnz]⟩
  · intro hz
    exact ⟨by simp [settleEffects, hz], by simp [settleEffects, hz],
      by simp [settleEffects, hz]⟩

/-- Witness for settlement_effects_amended at promptTokens = 2,
completionTokens = 0, ratios 1, pre-consumed 0: the computed quota is 2,
so the consume-log and both used-quota updates are issued. -/
theorem settlement_effects_amended_witness :
    (settleEffects 2 0 1 1 1 0).consumeLog = some (1, 1) ∧
    (settleEffects 2 0 1 1 1 0).userUsedQuotaAdded = some (settleQuota 2 0 1 (1 * 1)) :=
  have h := settlement_effects_amended 2 0 1 1 1 0
  have hnz : settleQuota 2 0 1 ((1 : ℚ) * 1) ≠ 0 := by
    norm_num [settleQuota, rawQuota]
  ⟨(h.2.2.1 hnz).1, (h.2.2.1 hnz).2.1⟩

/-- A non-winning, non-final event yields a new state with the cancel
table unchanged: non-200 responses and transport errors do not delete
entries, and the timer only touches the escalation list. -/
theorem raceStep_nonterminal {α : Type} (asyncNum : Nat) (origReq : α) (st : RaceState α)
    (e : RaceEvent) (hwin : e.isWin = false) (hdone : e ≠ RaceEvent.allDone) :
    ∃ st2, raceStep asyncNum origReq st e = Sum.inl st2 ∧ st2.cancelFuncs = st.cancelFuncs := by
  cases e with
  | resp i status =>
    have hs : ¬ status = 200 := by simpa [RaceEvent.isWin] using hwin
    exact ⟨{ st with resps := st.resps ++ [i] }, by simp [raceStep, hs], rfl⟩
  | errEvent i => exact ⟨{ st with lastErrIdx := some i }, rfl, rfl⟩
  | timerFire =>
    by_cases h : asyncNum > 1
    · exact ⟨{ st with escalations := st.escalations ++ [origReq] }, by simp [raceStep, h], rfl⟩
    · exact ⟨st, by simp [raceStep, h], rfl⟩
  | allDone => exact absurd rfl hdone

/-- Running the loop through a prefix of non-winning, non-final events
and then a 200 response from attempt i returns attempt i as the winner,
with exactly the cancel table minus the winner invoked. -/
theorem raceRun_until_win {α : Type} (asyncNum : Nat) (origReq : α) (pre : List RaceEvent) :
    ∀ st : RaceState α,
    (∀ e ∈ pre, e.isWin = false ∧ e ≠ RaceEvent.allDone) →
    ∀ (i : Nat) (rest : List RaceEvent),
    raceRun asyncNum origReq st (pre ++ RaceEvent.resp i 200 :: rest) =
      some (RaceOutcome.winner i (st.cancelFuncs.erase i)) := by
  induction pre with
  | nil =>
    intro st _ i rest
    simp [raceRun, raceStep]
  | cons e pre ih =>
    intro st hpre i rest
    obtain ⟨st2, hstep, hcf⟩ :=
      raceStep_nonterminal asyncNum origReq st e (hpre e (by simp)).1 (hpre e (by simp)).2
    have hrun : raceRun asyncNum origReq st ((e :: pre) ++ RaceEvent.resp i 200 :: rest) =
        raceRun asyncNum origReq st2 (pre ++ RaceEvent.resp i 200 :: rest) := by
      simp [raceRun, hstep]
    rw [hrun, ih st2 (fun e2 he2 => hpre e2 (by simp [he2])), hcf]

/-- C3: over any trace whose first 200 response comes from attempt i
after only non-winning, non-final events, asyncHTTPDo returns attempt i
as the winner; when it completes, the winner's own cancellation entry
has been removed from the shared table (so the winner is never among the
canceled entries) and the cancel function of every remaining entry is
invoked before the winner is returned. -/
theorem asyncHTTPDo_first200_wins {α : Type} (asyncNum : Nat) (origReq : α)
    (st : RaceState α) (pre rest : List RaceEvent) (i : Nat)
    (hpre : ∀ e ∈ pre, e.isWin = false ∧ e ≠ RaceEvent.allDone)
    (hnd : st.cancelFuncs.Nodup) :
    raceRun asyncNum origReq st (pre ++ RaceEvent.resp i 200 :: rest) =
      some (RaceOutcome.winner i (st.cancelFuncs.erase i)) ∧
    i ∉ st.cancelFuncs.erase i ∧
    (∀ j ∈ st.cancelFuncs, j ≠ i → j ∈ st.cancelFuncs.erase i) := by
  refine ⟨raceRun_until_win asyncNum origReq pre st hpre i rest, ?_, ?_⟩
  · intro hmem
    exact (hnd.mem_erase_iff.mp hmem).1 rfl
  · intro j hj hji
    exact (List.mem_erase_of_ne hji).mpr hj

/-- Witness for asyncHTTPDo_first200_wins: three attempts 0, 1, 2;
attempt 1 fails with status 500, then attempt 0 returns 200 and wins;
entries 1 and 2 are canceled. -/
theorem asyncHTTPDo_first200_wins_witness :
    (∀ e ∈ [RaceEvent.resp 1 500], e.isWin = false ∧ e ≠ RaceEvent.allDone) ∧
    ([0, 1, 2] : List Nat).Nodup ∧
    (raceRun 3 (7 : Nat) ⟨[0, 1, 2], [], none, []⟩
        ([RaceEvent.resp 1 500] ++ RaceEvent.resp 0 200 :: []) =
      some (RaceOutcome.winner 0 (([0, 1, 2] : List Nat).erase 0)) ∧
     0 ∉ ([0, 1, 2] : List Nat).erase 0 ∧
     (∀ j ∈ ([0, 1, 2] : List Nat), j ≠ 0 → j ∈ ([0, 1, 2] : List Nat).erase 0)) :=
  ⟨by decide, by decide,
   asyncHTTPDo_first200_wins 3 7 ⟨[0, 1, 2], [], none, []⟩
     [RaceEvent.resp 1 500] [] 0 (by decide) (by decide)⟩

/-- C4: when the 5-second timer fires with asyncNum greater than 1, the
loop launches exactly one additional attempt, recorded with the original
request object, and continues with asyncNum unchanged (it is an
immutable parameter of the loop); when asyncNum equals 1, the timer
firing changes nothing. -/
theorem asyncHTTPDo_timer_escalation {α : Type} (asyncNum : Nat) (origReq : α)
    (st : RaceState α) :
    (asyncNum > 1 →
      raceStep asyncNum origReq st RaceEvent.timerFire =
        Sum.inl { st with escalations := st.escalations ++ [origReq] }) ∧
    (asyncNum = 1 →
      raceStep asyncNum origReq st RaceEvent.timerFire = Sum.inl st) := by
  constructor
  · intro h
    simp [raceStep, h]
  · intro h
    subst h
    simp [raceStep]

/-- Witness for asyncHTTPDo_timer_escalation: with asyncNum = 2 the
timer appends one escalation with the original request 7; with
asyncNum = 1 the state is unchanged. -/
theorem asyncHTTPDo_timer_escalation_witness :
    raceStep 2 (7 : Nat) ⟨[0, 1], [], none, []⟩ RaceEvent.timerFire =
      Sum.inl ⟨[0, 1], [], none, [7]⟩ ∧
    raceStep 1 (7 : Nat) ⟨[0], [], none, []⟩ RaceEvent.timerFire =
      Sum.inl ⟨[0], [], none, []⟩ :=
  ⟨(asyncHTTPDo_timer_escalation 2 7 ⟨[0, 1], [], none, []⟩).1 (by decide),
   (asyncHTTPDo_timer_escalation 1 7 ⟨[0], [], none, []⟩).2 rfl⟩

/-- C5 as stated is false: under a mapping sending gpt-4 to gpt-4-32k,
the request model gpt-4 is replaced (isModelMapped is true), and the
name fed to the pricing-ratio lookups is the mapped name gpt-4-32k, not
the original gpt-4 as the claim requires, because relayTextHelper
overwrites textRequest.Model before computing modelRatio. -/
theorem pricing_uses_mapped_name_counterexample :
    (mapModelName exampleModelMap "gpt-4").2 = true ∧
    pricedModelName exampleModelMap "gpt-4" = "gpt-4-32k" ∧
    "gpt-4-32k" ≠ "gpt-4" := by
  refine ⟨?_, ?_, by decide⟩ <;> rfl

/-- C5 amended: for every request whose model name is replaced by the
channel's model_mapping, both the pricing ratios and the outbound
request body use the mapped name; the original name is discarded by the
mapping block. -/
theorem pricing_and_outbound_use_mapped_name (modelMap : String → String) (model : String)
    (hmapped : modelMap model ≠ "") :
    pricedModelName modelMap model = modelMap model ∧
    outboundModelName modelMap model = modelMap model ∧
    (mapModelName modelMap model).2 = true := by
  refine ⟨?_, ?_, ?_⟩ <;> simp [pricedModelName, outboundModelName, mapModelName, hmapped]

/-- Witness for pricing_and_outbound_use_mapped_name at the example
mapping and model gpt-4. -/
theorem pricing_and_outbound_use_mapped_name_witness :
    exampleModelMap "gpt-4" ≠ "" ∧
    (pricedModelName exampleModelMap "gpt-4" = exampleModelMap "gpt-4" ∧
     outboundModelName exampleModelMap "gpt-4" = exampleModelMap "gpt-4" ∧
     (mapModelName exampleModelMap "gpt-4").2 = true) :=
  ⟨by decide, pricing_and_outbound_use_mapped_name exampleModelMap "gpt-4" (by decide)⟩

/-- Renew interval in closed form: half the lease TTL in milliseconds,
floored at 1000 ms. -/
theorem renewIntervalMs_eq_max (cfg : Int) :
    renewIntervalMs cfg = max (effectiveLeaseSeconds cfg * 500) 1000 := by
  simp only [renewIntervalMs]
  generalize effectiveLeaseSeconds cfg = e
  split <;> omega

/-- C7: the renew interval is half the lease TTL floored at one second,
with the TTL defaulting to 15 seconds when unconfigured or non-positive;
the renew script returns 1 and extends the lease exactly when the stored
value is the node's own identity, and leaves the store untouched
otherwise; and every renew outcome other than the integer reply 1 (a 0
reply, an unexpected reply, or a transport error) demotes the node. -/
theorem leader_election_renew_spec (cfg ttlMillis : Int) (store : Option (String × Int))
    (nodeID : String) :
    renewIntervalMs cfg = max (effectiveLeaseSeconds cfg * 500) 1000 ∧
    (cfg ≤ 0 → effectiveLeaseSeconds cfg = 15) ∧
    (0 < cfg → effectiveLeaseSeconds cfg = cfg) ∧
    ((renewScript store nodeID ttlMillis).2 = 1 ↔ ∃ t, store = some (nodeID, t)) ∧
    ((renewScript store nodeID ttlMillis).2 = 1 →
      (renewScript store nodeID ttlMillis).1 = some (nodeID, ttlMillis)) ∧
    ((renewScript store nodeID ttlMillis).2 ≠ 1 →
      (renewScript store nodeID ttlMillis).1 = store) ∧
    (∀ res, leaderAfterRenew res = true ↔ res = Except.ok (RenewReply.intReply 1)) := by
  refine ⟨renewIntervalMs_eq_max cfg, ?_, ?_, ?_, ?_, ?_, ?_⟩
  · intro h
    simp [effectiveLeaseSeconds, h]
  · intro h
    simp [effectiveLeaseSeconds, not_le.mpr h]
  · cases store with
    | none => simp [renewScript]
    | some p =>
      obtain ⟨v, t⟩ := p
      by_cases hv : v = nodeID
      · subst hv
        simp [renewScript]
      · simp [renewScript, hv]
  · cases store with
    | none => simp [renewScript]
    | some p =>
      obtain ⟨v, t⟩ := p
      by_cases hv : v = nodeID
      · subst hv
        simp [renewScript]
      · simp [renewScript, hv]
  · cases store with
    | none => simp [renewScript]
    | some p =>
      obtain ⟨v, t⟩ := p
      by_cases hv : v = nodeID
      · subst hv
        simp [renewScript]
      · simp [renewScript, hv]
  · intro res
    cases res with
    | error e => simp [leaderAfterRenew]
    | ok r =>
      cases r with
      | intReply v =>
        by_cases hv : v = 1
        · subst hv
          simp [leaderAfterRenew]
        · simp [leaderAfterRenew, hv]
      | otherReply => simp [leaderAfterRenew]

/-- Witness for leader_election_renew_spec at cfg = 0, store holding
node n1 with TTL 99, renew TTL 15000, plus the demotion of a transport
error. -/
theorem leader_election_renew_spec_witness :
    effectiveLeaseSeconds 0 = 15 ∧
    (renewScript (some ("n1", 99)) "n1" 15000).1 = some ("n1", 15000) ∧
    leaderAfterRenew (Except.error ()) = false :=
  have h := leader_election_renew_spec 0 15000 (some ("n1", 99)) "n1"
  ⟨h.2.1 (by norm_num),
   h.2.2.2.2.1 ((h.2.2.2.1).mpr ⟨99, rfl⟩),
   Bool.eq_false_iff.mpr fun ht =>
     Except.noConfusion ((h.2.2.2.2.2.2 (Except.error ())).mp ht)⟩

/-- The first pipe of an id-then-pipe payload sits right after the id
when the id itself contains no pipe. -/
theorem indexOfPipe_append (l rest : List Char) (h : '|' ∉ l) :
    indexOfPipe (l ++ '|' :: rest) = some l.length := by
  induction l with
  | nil => simp [indexOfPipe]
  | cons a l ih =>
    have ha : a ≠ '|' := fun hh => h (by simp [hh])
    have h2 : '|' ∉ l := fun hm => h (List.mem_cons_of_mem a hm)
    simp [indexOfPipe, ha, ih h2]

/-- C8: a message on either sync topic whose origin prefix equals the
receiving node's own instance id (a nonempty identifier without the pipe
delimiter) never triggers a reload: the handler skips it. -/
theorem sync_self_origin_suppressed (instanceID : String) (topic : SyncTopic)
    (rest : List Char) (hne : instanceID.data ≠ []) (hnp : '|' ∉ instanceID.data) :
    handleSyncMessage instanceID topic (instanceID.data ++ '|' :: rest) =
      SyncAction.noAction := by
  have hidx := indexOfPipe_append instanceID.data rest hnp
  have hlen : 0 < instanceID.data.length := List.length_pos.mpr hne
  have htake : (instanceID.data ++ '|' :: rest).take instanceID.data.length =
      instanceID.data := List.take_left instanceID.data _
  simp only [handleSyncMessage, hidx, htake]
  rw [if_pos hlen]
  simp

/-- Witness for sync_self_origin_suppressed: node n1 receiving its own
options_sync reload message. -/
theorem sync_self_origin_suppressed_witness :
    ("n1" : String).data ≠ [] ∧ '|' ∉ ("n1" : String).data ∧
    handleSyncMessage "n1" SyncTopic.optionsSync
      (("n1" : String).data ++ '|' :: ("reload" : String).data) = SyncAction.noAction :=
  ⟨by decide, by decide,
   sync_self_origin_suppressed "n1" SyncTopic.optionsSync ("reload" : String).data
     (by decide) (by decide)⟩

/-- C9 as stated is false on its own example: gpt-4.0613 sanitizes to
gpt-40613, not gpt-4, because the dot is removed first, which destroys
the -0613 suffix before the suffix strip runs. -/
theorem azure_sanitize_claim_counterexample :
    sanitizeAzureModel "gpt-4.0613" = "gpt-40613" ∧ "gpt-40613" ≠ "gpt-4" := by
  constructor
  · rfl
  · decide

/-- takeWhile on a non-witness-free list is the identity. -/
theorem takeWhile_no_query (l : List Char) (h : '?' ∉ l) :
    l.takeWhile (fun a => a ≠ '?') = l := by
  induction l with
  | nil => rfl
  | cons a l ih =>
    have ha : a ≠ '?' := fun hh => h (by simp [hh])
    have h2 : '?' ∉ l := fun hm => h (List.mem_cons_of_mem a hm)
    simp [List.takeWhile_cons, ha, ih h2]
    intro x hx hxq
    exact h2 (hxq ▸ hx)

/-- TrimPrefix after an append of the pattern itself removes exactly the
pattern. -/
theorem goTrimLeading_append (pat rest : List Char) :
    goTrimLeading (pat ++ rest) pat = rest := by
  have hp : pat.isPrefixOf (pat ++ rest) :=
    List.isPrefixOf_iff_prefix.mpr (List.prefix_append pat rest)
  simp [goTrimLeading, hp]

/-- C9 amended: for every Azure-type channel request on a /v1/ path, the
outbound path is /openai/deployments/{sanitized_model}/{task} with the
api-version query appended, where sanitization removes every dot and
then strips a trailing -0301, -0314 or -0613; the claim's example input
gpt-4.0613 sanitizes to gpt-40613 (the dot removal destroys the -0613
suffix), while gpt-4-0613 sanitizes to gpt-4 and gpt-3.5-turbo to
gpt-35-turbo. -/
theorem azure_url_rewrite_amended (t apiVersion model : String) (hq : '?' ∉ t.data) :
    azureRequestURL ("/v1/" ++ t) apiVersion model =
      "/openai/deployments/" ++ sanitizeAzureModel model ++ "/" ++ t ++
        "?api-version=" ++ apiVersion ∧
    sanitizeAzureModel "gpt-4.0613" = "gpt-40613" ∧
    sanitizeAzureModel "gpt-4-0613" = "gpt-4" ∧
    sanitizeAzureModel "gpt-3.5-turbo" = "gpt-35-turbo" := by
  refine ⟨?_, rfl, rfl, rfl⟩
  have hdata : ("/v1/" ++ t).data = ("/v1/" : String).data ++ t.data := by
    simp [String.data_append]
  have hnoq : '?' ∉ ("/v1/" : String).data ++ t.data := by
    intro hm
    rcases List.mem_append.mp hm with hm1 | hm2
    · revert hm1
      decide
    · exact hq hm2
  have hcut : goCutAtQuery (("/v1/" : String).data ++ t.data) =
      ("/v1/" : String).data ++ t.data :=
    takeWhile_no_query _ hnoq
  apply String.ext
  simp only [azureRequestURL, hdata, hcut, List.append_assoc, goTrimLeading_append]
  simp [String.data_append]

/-- Witness for azure_url_rewrite_amended at the chat completions path,
api version 2023-05-15 and model gpt-4-0613. -/
theorem azure_url_rewrite_amended_witness :
    '?' ∉ ("chat/completions" : String).data ∧
    (azureRequestURL ("/v1/" ++ "chat/completions") "2023-05-15" "gpt-4-0613" =
      "/openai/deployments/" ++ sanitizeAzureModel "gpt-4-0613" ++ "/" ++
        "chat/completions" ++ "?api-version=" ++ "2023-05-15" ∧
     sanitizeAzureModel "gpt-4.0613" = "gpt-40613" ∧
     sanitizeAzureModel "gpt-4-0613" = "gpt-4" ∧
     sanitizeAzureModel "gpt-3.5-turbo" = "gpt-35-turbo") :=
  ⟨by decide, azure_url_rewrite_amended "chat/completions" "2023-05-15" "gpt-4-0613"
    (by decide)⟩

/-- C10: the Channel accessors are total on nil optional fields (both
match arms are covered, so no accessor dereferences a nil pointer):
GetPriority returns 0 on a nil priority, GetBaseURL and GetModelMapping
return the empty string on nil pointers, and each returns the pointee
when the pointer is set. -/
theorem channel_accessors_total (c : Channel) :
    (c.priority = none → c.getPriority = 0) ∧
    (c.baseURL = none → c.getBaseURL = "") ∧
    (c.modelMapping = none → c.getModelMapping = "") ∧
    (∀ p, c.priority = some p → c.getPriority = p) ∧
    (∀ u, c.baseURL = some u → c.getBaseURL = u) ∧
    (∀ m, c.modelMapping = some m → c.getModelMapping = m) := by
  refine ⟨?_, ?_, ?_, ?_, ?_, ?_⟩
  · intro h
    simp [Channel.getPriority, h]
  · intro h
    simp [Channel.getBaseURL, h]
  · intro h
    simp [Channel.getModelMapping, h]
  · intro p h
    simp [Channel.getPriority, h]
  · intro u h
    simp [Channel.getBaseURL, h]
  · intro m h
    simp [Channel.getModelMapping, h]

/-- Witness for channel_accessors_total at a channel whose three
optional pointers are all nil. -/
theorem channel_accessors_total_witness :
    exampleChannel.getPriority = 0 ∧
    exampleChannel.getBaseURL = "" ∧
    exampleChannel.getModelMapping = "" :=
  ⟨(channel_accessors_total exampleChannel).1 rfl,
   (channel_accessors_total exampleChannel).2.1 rfl,
   (channel_accessors_total exampleChannel).2.2.1 rfl⟩
